import Mathlib

/- Verification of the FigmaToCode generators: a shallow embedding of
   packages/backend/src/html/htmlDefaultBuilder.ts and
   packages/backend/src/swiftui/swiftuiMain.ts, together with theorems about
   the claims of the specification.

   JavaScript strings are modelled by String, JavaScript numbers by Rat.
   The JS string primitives are re-implemented over the character data of a
   string so that every definition reduces inside the kernel. -/

/-- JavaScript Array.prototype.join with a separator: the empty list gives the
empty string, otherwise the elements separated by the separator. -/
def jsJoin (sep : String) : List String → String
  | [] => ""
  | [a] => a
  | a :: b :: rest => a ++ sep ++ jsJoin sep (b :: rest)

/-- Split a character list at every occurrence of the character c, following
JavaScript String.prototype.split semantics (an empty input yields one empty
field, a separator at the edge yields an empty field on that side). -/
def splitCharsOn (c : Char) : List Char → List (List Char)
  | [] => [[]]
  | a :: rest =>
    match splitCharsOn c rest with
    | [] => if a = c then [[], []] else [[a]]
    | h :: t => if a = c then [] :: h :: t else (a :: h) :: t

/-- JavaScript String.prototype.split restricted to a one-character
separator, which is the only form the embedded code uses. -/
def jsSplit (sep : Char) (s : String) : List String :=
  (splitCharsOn sep s.data).map String.mk

/-- JavaScript String.prototype.trim: remove whitespace from both ends. -/
def jsTrim (s : String) : String :=
  String.mk (((s.data.dropWhile Char.isWhitespace).reverse.dropWhile
    Char.isWhitespace).reverse)

/-- JavaScript String.prototype.trimStart: remove leading whitespace. -/
def jsTrimStart (s : String) : String :=
  String.mk (s.data.dropWhile Char.isWhitespace)

/-- JavaScript String.prototype.toLowerCase on ASCII data. -/
def jsToLowerCase (s : String) : String :=
  String.mk (s.data.map Char.toLower)

/-- JavaScript String.prototype.toUpperCase on ASCII data. -/
def jsToUpperCase (s : String) : String :=
  String.mk (s.data.map Char.toUpper)

/-- JavaScript Math.round on an exact rational: the floor of q + 1/2,
computed directly on the numerator and denominator so that it reduces in the
kernel. -/
def jsRound (q : Rat) : Int :=
  (2 * q.num + q.den).fdiv (2 * q.den)

namespace Html

/- Shallow embedding of packages/backend/src/html/htmlDefaultBuilder.ts.
   The helpers that live outside the inspected source (formatWithJSX,
   htmlColorFromFills, htmlGradientFromFills, sliceNum, htmlBorderRadius,
   commonStroke) are taken as parameters: every theorem below is proved for
   all possible behaviours of those helpers. -/

/-- The layoutSizingHorizontal / layoutSizingVertical values of a node. -/
inductive LayoutSizing where
  | FIXED
  | HUG
  | FILL
deriving DecidableEq

/-- Result shape of commonStroke: either one uniform weight for all four
edges, or one weight per edge. -/
inductive CommonStroke where
  | all (weight : Rat)
  | sides (left top right bottom : Rat)

/-- An rgba color carried by a solid paint. -/
structure RGB where
  r : Nat
  g : Nat
  b : Nat
deriving DecidableEq

/-- A stop of a gradient paint. -/
structure GradientStop where
  position : Rat
  color : RGB
deriving DecidableEq

/-- The paint union of the Figma plugin API, restricted to the variants the
builder dispatches on; every other variant is collapsed into IMAGE-like
unsupported kinds. -/
inductive Paint where
  | SOLID (color : RGB) (opacity : Rat)
  | GRADIENT_LINEAR (gradientStops : List GradientStop)
  | GRADIENT_RADIAL (gradientStops : List GradientStop)
  | GRADIENT_ANGULAR (gradientStops : List GradientStop)
  | IMAGE
  | VIDEO
deriving DecidableEq

instance : Inhabited Paint := ⟨Paint.IMAGE⟩

/-- True exactly on the SOLID variant. -/
def Paint.isSolid : Paint → Bool
  | .SOLID _ _ => true
  | _ => false

/-- A paint list as received from the node: either the mixed sentinel
(figma.mixed) or an ordered list of paints. -/
inductive Fills where
  | mixed
  | list (paints : List Paint)

/-- The addStyles helper of HtmlDefaultBuilder: push the new styles, dropping
falsy (empty) strings. -/
def addStyles (styles newStyles : List String) : List String :=
  styles ++ newStyles.filter (fun style => style != "")

/-- The consolidateBorders closure inside HtmlDefaultBuilder.border: join the
weight (with px suffix), the color and the border style, dropping empty
parts. -/
def consolidateBorders (sliceNum : Rat → String) (color borderStyle : String)
    (border : Rat) : String :=
  jsJoin " " (([sliceNum border ++ "px", color, borderStyle]).filter
    (fun d => d != ""))

/-- HtmlDefaultBuilder.border (htmlDefaultBuilder.ts lines 81-142): first the
border-radius styles are pushed, then, if commonStroke resolved, either one
shorthand border declaration (uniform weight, only when non-zero) or one
declaration per non-zero edge in left, top, right, bottom order.
fmt stands for formatWithJSX, radiusStyles for the result of
htmlBorderRadius, strokesColor for htmlColorFromFills(node.strokes) and
dashPatternLength for node.dashPattern.length; none of those live under the
inspected source, so they are parameters. -/
def border (fmt : String → Bool → String → String) (sliceNum : Rat → String)
    (isJSX : Bool) (radiusStyles : List String)
    (commonBorder : Option CommonStroke) (strokesColor : String)
    (dashPatternLength : Nat) : List String :=
  let styles := addStyles [] radiusStyles
  match commonBorder with
  | none => styles
  | some cb =>
    let borderStyle := if dashPatternLength > 0 then "dotted" else "solid"
    let cons := consolidateBorders sliceNum strokesColor borderStyle
    match cb with
    | .all weight =>
      if weight = 0 then styles
      else addStyles styles [fmt "border" isJSX (cons weight)]
    | .sides l t r b =>
      let s1 := if l ≠ 0 then
        addStyles styles [fmt "border-left" isJSX (cons l)] else styles
      let s2 := if t ≠ 0 then
        addStyles s1 [fmt "border-top" isJSX (cons t)] else s1
      let s3 := if r ≠ 0 then
        addStyles s2 [fmt "border-right" isJSX (cons r)] else s2
      if b ≠ 0 then
        addStyles s3 [fmt "border-bottom" isJSX (cons b)] else s3

/-- The property name of one accumulated style declaration, as computed inside
HtmlDefaultBuilder.build: the part of the string before the first colon,
trimmed. -/
def styleProp (s : String) : String :=
  jsTrim (String.mk (s.data.takeWhile (fun c => c != ':')))

/-- The declaration filter of HtmlDefaultBuilder.build (htmlDefaultBuilder.ts
lines 296-307): every accumulated style is trimmed, then a width declaration
is kept only when layoutSizingHorizontal is FIXED and a height declaration
only when layoutSizingVertical is FIXED; everything else passes through. -/
def buildStyleFilter (styles : List String)
    (layoutSizingHorizontal layoutSizingVertical : LayoutSizing) :
    List String :=
  let formattedStyles := styles.map (fun s => jsTrim s)
  formattedStyles.filter (fun s =>
    let p := styleProp s
    if p = "width" then decide (layoutSizingHorizontal = .FIXED)
    else if p = "height" then decide (layoutSizingVertical = .FIXED)
    else true)

/-- HtmlDefaultBuilder.buildBackgroundValues (htmlDefaultBuilder.ts lines
186-215). hcf stands for htmlColorFromFills and hgf for
htmlGradientFromFills, which live outside the inspected source and are
parameters. -/
def buildBackgroundValues (hcf hgf : List Paint → String)
    (paintArray : Fills) : String :=
  match paintArray with
  | .mixed => ""
  | .list ps =>
    if ps.length = 1 && (ps.headD default).isSolid then hcf ps
    else
      let styles := ps.map (fun paint =>
        match paint with
        | .SOLID _ _ =>
          let color := hcf [paint]
          "linear-gradient(0deg, " ++ color ++ " 0%, " ++ color ++ " 100%)"
        | .GRADIENT_LINEAR _ => hgf [paint]
        | .GRADIENT_RADIAL _ => hgf [paint]
        | .GRADIENT_ANGULAR _ => hgf [paint]
        | _ => "")
      jsJoin ", " (styles.filter (fun value => value != ""))

/-- The segment contributed by one paint on the multi-paint path of
buildBackgroundValues: solid paints become a degenerate two-stop gradient,
gradient paints go through htmlGradientFromFills, every other kind
contributes nothing. -/
def paintSegment (hcf hgf : List Paint → String) : Paint → Option String
  | .SOLID c o =>
    let color := hcf [.SOLID c o]
    some ("linear-gradient(0deg, " ++ color ++ " 0%, " ++ color ++ " 100%)")
  | .GRADIENT_LINEAR s => some (hgf [.GRADIENT_LINEAR s])
  | .GRADIENT_RADIAL s => some (hgf [.GRADIENT_RADIAL s])
  | .GRADIENT_ANGULAR s => some (hgf [.GRADIENT_ANGULAR s])
  | _ => none

/-- True exactly on the three gradient variants. -/
def Paint.isGradient : Paint → Bool
  | .GRADIENT_LINEAR _ => true
  | .GRADIENT_RADIAL _ => true
  | .GRADIENT_ANGULAR _ => true
  | _ => false

end Html

namespace Swiftui

/- Shallow embedding of packages/backend/src/swiftui/swiftuiMain.ts.
   The two fluent builders (SwiftuiDefaultBuilder, SwiftuiTextBuilder) and the
   common helpers className and sliceNum are imported there from files outside
   the inspected source; they are collected in the Ext parameter record and
   every theorem below is proved for all possible behaviours of them, or
   instantiated explicitly in closed statements. -/

/-- The node kinds the walker dispatches on; kinds without a registered
renderer (VECTOR, INSTANCE, ...) are also represented. -/
inductive NodeType where
  | RECTANGLE
  | ELLIPSE
  | GROUP
  | FRAME
  | TEXT
  | VECTOR
  | INSTANCE
  | COMPONENT
  | LINE
deriving DecidableEq

/-- The textCase field of a text node. -/
inductive TextCase where
  | ORIGINAL
  | UPPER
  | LOWER
  | TITLE
deriving DecidableEq

/-- The layoutMode field of a frame or of an inferred layout snapshot. -/
inductive LayoutMode where
  | NONE
  | HORIZONTAL
  | VERTICAL
deriving DecidableEq

/-- The counterAxisAlignItems field of a frame or of an inferred layout
snapshot. -/
inductive CounterAlign where
  | MIN
  | MAX
  | CENTER
  | BASELINE
deriving DecidableEq

/-- The fields of inferredAutoLayoutResult that createDirectionalStack,
getLayoutAlignment and getSpacing read: both a frame node and its inferred
layout snapshot expose them. -/
structure LayoutInfo where
  layoutMode : LayoutMode
  counterAxisAlignItems : CounterAlign
  itemSpacing : Rat
deriving DecidableEq

/-- A scene node: the fields of the Figma node tree that swiftuiMain.ts
reads. hasLayoutAlign and hasOpacity model the dynamic field-presence probes
of swiftuiContainer. -/
inductive SNode where
  | mk
    (type : NodeType)
    (name : String)
    (visible : Bool)
    (width height : Rat)
    (hasLayoutAlign hasOpacity : Bool)
    (children : List SNode)
    (characters : String)
    (textCase : TextCase)
    (layout : LayoutInfo)
    (inferredAutoLayout : Option LayoutInfo)

/-- The node kind. -/
def SNode.type : SNode → NodeType
  | .mk t _ _ _ _ _ _ _ _ _ _ _ => t

/-- The layer name. -/
def SNode.name : SNode → String
  | .mk _ n _ _ _ _ _ _ _ _ _ _ => n

/-- The visibility flag. -/
def SNode.visible : SNode → Bool
  | .mk _ _ v _ _ _ _ _ _ _ _ _ => v

/-- The width in pixels. -/
def SNode.width : SNode → Rat
  | .mk _ _ _ w _ _ _ _ _ _ _ _ => w

/-- The height in pixels. -/
def SNode.height : SNode → Rat
  | .mk _ _ _ _ h _ _ _ _ _ _ _ => h

/-- Whether the layoutAlign field is present on the node. -/
def SNode.hasLayoutAlign : SNode → Bool
  | .mk _ _ _ _ _ a _ _ _ _ _ _ => a

/-- Whether the opacity field is present on the node. -/
def SNode.hasOpacity : SNode → Bool
  | .mk _ _ _ _ _ _ o _ _ _ _ _ => o

/-- The ordered child list. -/
def SNode.children : SNode → List SNode
  | .mk _ _ _ _ _ _ _ c _ _ _ _ => c

/-- The characters of a text node. -/
def SNode.characters : SNode → String
  | .mk _ _ _ _ _ _ _ _ c _ _ _ => c

/-- The textCase of a text node. -/
def SNode.textCase : SNode → TextCase
  | .mk _ _ _ _ _ _ _ _ _ tc _ _ => tc

/-- The layout fields carried by the node itself. -/
def SNode.layout : SNode → LayoutInfo
  | .mk _ _ _ _ _ _ _ _ _ _ l _ => l

/-- The inferred layout snapshot, present only under optimize mode. -/
def SNode.inferredAutoLayout : SNode → Option LayoutInfo
  | .mk _ _ _ _ _ _ _ _ _ _ _ i => i

/-- The helpers imported by swiftuiMain.ts from files outside the inspected
source: the full fluent chain of SwiftuiDefaultBuilder ending in build (as a
function of the kind string, the node, the optimizeLayout flag and the
integer passed to build), the full fluent chain of SwiftuiTextBuilder ending
in build, and the common className and sliceNum formatters. -/
structure Ext where
  defaultBuild : String → SNode → Bool → Int → String
  textModifier : SNode → Bool → String
  className : String → String
  sliceNum : Rat → String

/-- The swiftUIGenerationMode values of the plugin settings. -/
inductive GenMode where
  | snippet
  | struct
  | preview
deriving DecidableEq

/-- The slice of PluginSettings that swiftuiMain.ts reads. -/
structure Settings where
  swiftUIGenerationMode : GenMode
  optimizeLayout : Bool

/-- Modelled from the spec: the common indentString helper (not under the
inspected source) indents a fragment by prefixing every non-empty line with
spaces for the given indentation level. -/
def indentString (s : String) (indentLevel : Nat) : String :=
  jsJoin "\n" ((jsSplit '\n' s).map (fun line =>
    if line = "" then line
    else String.mk (List.replicate (2 * indentLevel) ' ') ++ line))

/-- getSpacing (swiftuiMain.ts lines 219-224): the measured item spacing,
unless it rounds to the default constant 16, in which case the constant 16
itself. -/
def getSpacing (inferredAutoLayout : LayoutInfo) : Rat :=
  let defaultSpacing : Rat := 16
  if jsRound inferredAutoLayout.itemSpacing ≠ 16 then
    inferredAutoLayout.itemSpacing
  else defaultSpacing

/-- getLayoutAlignment (swiftuiMain.ts lines 202-217). -/
def getLayoutAlignment (inferredAutoLayout : LayoutInfo) : String :=
  match inferredAutoLayout.counterAxisAlignItems with
  | .MIN =>
    if inferredAutoLayout.layoutMode = .VERTICAL then ".leading" else ".top"
  | .MAX =>
    if inferredAutoLayout.layoutMode = .VERTICAL then ".trailing" else ".bottom"
  | .BASELINE => ".firstTextBaseline"
  | .CENTER => ""

/-- A property value of generateSwiftViewCode: a string or a number. -/
inductive PropValue where
  | str (s : String)
  | num (q : Rat)

/-- generateSwiftViewCode (swiftuiMain.ts lines 226-247): drop empty-string
properties, render key-value pairs (numbers through sliceNum), and lay the
construct out on one line or several depending on the joined length. -/
def generateSwiftViewCode (ext : Ext) (className : String)
    (properties : List (String × PropValue)) (children : String) : String :=
  let propertiesArray := (properties.filter (fun kv =>
      match kv.2 with
      | .str s => s != ""
      | .num _ => true)).map (fun kv =>
      kv.1 ++ ": " ++ (match kv.2 with
        | .num q => ext.sliceNum q
        | .str s => s))
  let compactPropertiesArray := jsJoin ", " propertiesArray
  if compactPropertiesArray.length > 60 then
    className ++ "(\n" ++ jsJoin ",\n" propertiesArray ++ "\n) \x7b" ++
      children ++ "\n\x7d"
  else
    className ++ "(" ++ compactPropertiesArray ++ ") \x7b\n" ++
      indentString children 1 ++ "\n\x7d"

/-- createDirectionalStack (swiftuiMain.ts lines 184-200). -/
def createDirectionalStack (ext : Ext) (children : String)
    (inferredAutoLayout : LayoutInfo) : String :=
  if inferredAutoLayout.layoutMode ≠ .NONE then
    generateSwiftViewCode ext
      (if inferredAutoLayout.layoutMode = .HORIZONTAL then "HStack" else "VStack")
      [("alignment", .str (getLayoutAlignment inferredAutoLayout)),
       ("spacing", .num (getSpacing inferredAutoLayout))]
      children
  else
    generateSwiftViewCode ext "ZStack" [] children

/-- swiftuiContainer (swiftuiMain.ts lines 89-126): bail out when the dynamic
field probes fail, return the bare stack when the size is zero or less,
otherwise run the SwiftuiDefaultBuilder chain on the kind and indent the
result. -/
def swiftuiContainer (ext : Ext) (st : Settings) (node : SNode)
    (indentLevel : Nat) (stack : String := "") : String :=
  if !node.hasLayoutAlign || !node.hasOpacity then ""
  else if node.width ≤ 0 || node.height ≤ 0 then stack
  else
    let kind :=
      if node.type = .RECTANGLE then "Rectangle()"
      else if node.type = .ELLIPSE then "Ellipse()"
      else stack
    let result := ext.defaultBuild kind node st.optimizeLayout
      (if kind = stack then -2 else 0)
    indentString result indentLevel

/-- swiftuiText (swiftuiMain.ts lines 136-163): apply the text case, escape
line breaks when the text spans several lines, then run the
SwiftuiTextBuilder chain and indent the Text construct. -/
def swiftuiText (ext : Ext) (st : Settings) (node : SNode)
    (indentLevel : Nat) : String :=
  let text :=
    if node.textCase = .LOWER then jsToLowerCase node.characters
    else if node.textCase = .UPPER then jsToUpperCase node.characters
    else node.characters
  let splittedChars := jsSplit '\n' text
  let charsWithLineBreak :=
    if splittedChars.length > 1 then jsJoin "\\n" splittedChars else text
  let modifier := ext.textModifier node st.optimizeLayout
  let result := "\nText(\"" ++ charsWithLineBreak ++ "\")" ++ modifier
  indentString result indentLevel

/-- The truncation warning comment of widgetGeneratorWithLimits
(swiftuiMain.ts lines 265-267), emitted when a container has more than 100
children. -/
def truncationComment : String :=
  "\n// SwiftUI has a 10 item limit in Stacks. By grouping them, it can grow even more. \n// It seems, however, that you have more than 100 items at the same level. Wow!\n// This is not yet supported; Limiting to the first 100 items..."

/-- Consecutive order-preserving chunks of ten elements, the shape produced
by the slicing loop of widgetGeneratorWithLimits. -/
def chunksOf10 (l : List α) : List (List α) :=
  if l.isEmpty then [] else l.take 10 :: chunksOf10 (l.drop 10)
termination_by l.length
decreasing_by
  cases l with
  | nil => simp_all
  | cons a t => simp [List.length_drop]; omega

end Swiftui

namespace Swiftui

mutual

/-- swiftuiWidgetGenerator (swiftuiMain.ts lines 57-85): filter the invisible
nodes, then render each remaining node in order with a newline separator
after every element except the last. -/
def swiftuiWidgetGenerator (ext : Ext) (st : Settings)
    (sceneNode : List SNode) (indentLevel : Nat) : String :=
  widgetLoop ext st (sceneNode.filter (fun d => d.visible)) indentLevel
termination_by 8 * sizeOf sceneNode + 2
decreasing_by
  have hfil : ∀ (l : List SNode),
      sizeOf (l.filter (fun d => d.visible)) ≤ sizeOf l := by
    intro l
    induction l with
    | nil => simp
    | cons a t ih =>
      rw [List.filter_cons]
      split <;> (simp only [List.cons.sizeOf_spec]; omega)
  have := hfil sceneNode
  omega

/-- The forEach body of swiftuiWidgetGenerator over the already-filtered
visible nodes: a rendered unit per node and a newline after every node except
the last. -/
def widgetLoop (ext : Ext) (st : Settings) :
    List SNode → Nat → String
  | [], _ => ""
  | [node], lvl => renderNode ext st node lvl
  | node :: next :: rest, lvl =>
    renderNode ext st node lvl ++ "\n" ++ widgetLoop ext st (next :: rest) lvl
termination_by ns _ => 8 * sizeOf ns + 1
decreasing_by
  all_goals
    simp only [List.cons.sizeOf_spec, List.nil.sizeOf_spec]
    omega

/-- The kind dispatch inside the forEach of swiftuiWidgetGenerator: node
kinds without a branch contribute the empty string. -/
def renderNode (ext : Ext) (st : Settings) (node : SNode)
    (lvl : Nat) : String :=
  if node.type = .RECTANGLE ∨ node.type = .ELLIPSE then
    swiftuiContainer ext st node lvl
  else if node.type = .GROUP then swiftuiGroup ext st node lvl
  else if node.type = .FRAME then swiftuiFrame ext st node lvl
  else if node.type = .TEXT then swiftuiText ext st node lvl
  else ""
termination_by 8 * sizeOf node + 6
decreasing_by all_goals omega

/-- swiftuiGroup (swiftuiMain.ts lines 128-134): render the children inside a
ZStack and hand the stack to swiftuiContainer. -/
def swiftuiGroup (ext : Ext) (st : Settings) (node : SNode)
    (lvl : Nat) : String :=
  swiftuiContainer ext st node lvl
    ("\nZStack \x7b" ++ widgetGeneratorWithLimits ext st node lvl ++ "\n\x7d")
termination_by 8 * sizeOf node + 5
decreasing_by omega

/-- swiftuiFrame (swiftuiMain.ts lines 165-182): render the children one
level deeper when there are several, synthesize the directional stack from
the effective layout, and hand it to swiftuiContainer. -/
def swiftuiFrame (ext : Ext) (st : Settings) (node : SNode)
    (lvl : Nat) : String :=
  let children := widgetGeneratorWithLimits ext st node
    (if node.children.length > 1 then lvl + 1 else lvl)
  let anyStack := createDirectionalStack ext children
    (match st.optimizeLayout, node.inferredAutoLayout with
     | true, some lay => lay
     | _, _ => node.layout)
  swiftuiContainer ext st node lvl anyStack
termination_by 8 * sizeOf node + 5
decreasing_by omega

/-- widgetGeneratorWithLimits (swiftuiMain.ts lines 250-278): below ten
children the standard walker runs; otherwise the children are sliced to the
first hundred, a truncation comment is emitted when more than a hundred were
present, and the slice is rendered in Groups of ten. -/
def widgetGeneratorWithLimits (ext : Ext) (st : Settings) (node : SNode)
    (indentLevel : Nat) : String :=
  if node.children.length < 10 then
    swiftuiWidgetGenerator ext st node.children indentLevel
  else
    let slicedChildren := node.children.take 100
    let warning :=
      if node.children.length > 100 then truncationComment else ""
    warning ++ widgetChunkLoop ext st slicedChildren indentLevel
termination_by 8 * sizeOf node + 4
decreasing_by
  all_goals
    have hch : sizeOf node.children < sizeOf node := by
      cases node with
      | mk t n v w h a o c ch tc l i =>
        simp only [SNode.children, SNode.mk.sizeOf_spec]
        omega
  · omega
  · have htake : ∀ (k : Nat) (l : List SNode), sizeOf (l.take k) ≤ sizeOf l := by
      intro k l
      induction l generalizing k with
      | nil => simp
      | cons a t ih =>
        cases k with
        | zero => simp only [List.take, List.nil.sizeOf_spec,
            List.cons.sizeOf_spec]; omega
        | succ k => simp only [List.take_succ_cons, List.cons.sizeOf_spec]
                    have := ih k
                    omega
    have := htake 100 node.children
    omega

/-- The slicing loop of widgetGeneratorWithLimits: take ten children at a
time and wrap each chunk in a Group construct. -/
def widgetChunkLoop (ext : Ext) (st : Settings) (cs : List SNode)
    (indentLevel : Nat) : String :=
  if cs.isEmpty then ""
  else
    "\nGroup \x7b" ++ swiftuiWidgetGenerator ext st (cs.take 10) indentLevel ++
      "\n\x7d" ++ widgetChunkLoop ext st (cs.drop 10) indentLevel
termination_by 8 * sizeOf cs + 3
decreasing_by
  all_goals
    have htake : ∀ (k : Nat) (l : List SNode), sizeOf (l.take k) ≤ sizeOf l := by
      intro k l
      induction l generalizing k with
      | nil => simp
      | cons a t ih =>
        cases k with
        | zero => simp only [List.take, List.nil.sizeOf_spec,
            List.cons.sizeOf_spec]; omega
        | succ k => simp only [List.take_succ_cons, List.cons.sizeOf_spec]
                    have := ih k
                    omega
  all_goals
    have hdrop : ∀ (k : Nat) (l : List SNode), sizeOf (l.drop k) ≤ sizeOf l := by
      intro k l
      induction l generalizing k with
      | nil => simp
      | cons a t ih =>
        cases k with
        | zero => simp
        | succ k => simp only [List.drop_succ_cons, List.cons.sizeOf_spec]
                    have := ih k
                    omega
  · have := htake 10 cs
    omega
  · cases cs with
    | nil => simp_all
    | cons a t =>
      have := hdrop 9 t
      simp only [List.drop_succ_cons, List.cons.sizeOf_spec]
      omega

end

end Swiftui

namespace Swiftui

/-- getStructTemplate (swiftuiMain.ts lines 9-14). -/
def getStructTemplate (name injectCode : String) : String :=
  "struct " ++ name ++ ": View \x7b\n  var body: some View \x7b\n    " ++
    jsTrimStart (indentString injectCode 4) ++ ";\n  \x7d\n\x7d"

/-- getPreviewTemplate (swiftuiMain.ts lines 16-29); the name argument is
accepted but, as in the source, never used by the template. -/
def getPreviewTemplate (_name injectCode : String) : String :=
  "import SwiftUI\n\nstruct ContentView: View \x7b\n  var body: some View \x7b\n    " ++
    jsTrimStart (indentString injectCode 4) ++ ";\n  \x7d\n\x7d\n\n" ++
    "struct ContentView_Previews: PreviewProvider \x7b\n  static var previews: some View \x7b\n    ContentView()\n  \x7d\n\x7d"

/-- swiftuiMain (swiftuiMain.ts lines 31-55): run the walker at depth zero,
then return by generation mode. The switch covers every mode and returns in
each branch, so the leading-newline removal written after it (lines 49-54)
is unreachable and does not appear in the semantics. In struct and preview
mode the code reads sceneNode[0].name, which throws on an empty root
sequence; that failure is modelled by none. -/
def swiftuiMain (ext : Ext) (settings : Settings)
    (sceneNode : List SNode) : Option String :=
  let result := swiftuiWidgetGenerator ext settings sceneNode 0
  match settings.swiftUIGenerationMode with
  | .snippet => some result
  | .struct => sceneNode.head?.map
      (fun n => getStructTemplate (ext.className n.name) result)
  | .preview => sceneNode.head?.map
      (fun n => getPreviewTemplate (ext.className n.name) result)

end Swiftui

/-- Concatenation of a list of strings, used to state the shape of the
chunked output. -/
def concatAll : List String → String
  | [] => ""
  | a :: rest => a ++ concatAll rest

namespace Fixtures

open Swiftui
open Html

/-- A concrete instantiation of the external SwiftUI helpers, used by the
closed witness and counterexample statements: the default builder chain
always yields the string B, the text modifier chain is empty. -/
def ext0 : Ext :=
  ⟨fun _ _ _ _ => "B", fun _ _ => "", fun s => s, fun _ => "1"⟩

/-- Snippet-mode settings without layout optimization. -/
def st0 : Settings := ⟨.snippet, false⟩

/-- A layout record with no auto-layout. -/
def lay0 : LayoutInfo := ⟨.NONE, .CENTER, 0⟩

/-- A visible 10 by 10 rectangle node without children. -/
def rect0 : SNode :=
  .mk .RECTANGLE "r" true 10 10 true true [] "" .ORIGINAL lay0 none

/-- A visible vector node: a kind without a registered renderer. -/
def vec0 : SNode :=
  .mk .VECTOR "v" true 10 10 true true [] "" .ORIGINAL lay0 none

/-- A visible text node with characters hi. -/
def text0 : SNode :=
  .mk .TEXT "t" true 10 10 true true [] "hi" .ORIGINAL lay0 none

/-- A visible group node of width zero with no children. -/
def group0 : SNode :=
  .mk .GROUP "g" true 0 10 true true [] "" .ORIGINAL lay0 none

/-- A visible frame node with twenty-five rectangle children. -/
def frame25 : SNode :=
  .mk .FRAME "f25" true 10 10 true true (List.replicate 25 rect0) ""
    .ORIGINAL lay0 none

/-- A visible frame node with one hundred and fifty rectangle children. -/
def frame150 : SNode :=
  .mk .FRAME "f150" true 10 10 true true (List.replicate 150 rect0) ""
    .ORIGINAL lay0 none

/-- A visible frame node with exactly ten rectangle children. -/
def frame10 : SNode :=
  .mk .FRAME "f10" true 10 10 true true (List.replicate 10 rect0) ""
    .ORIGINAL lay0 none

/-- A layout record whose measured item spacing is 15.5, which rounds to the
default constant 16. -/
def layHalf : LayoutInfo := ⟨.HORIZONTAL, .CENTER, mkRat 31 2⟩

/-- A concrete formatWithJSX instantiation: property, colon, value. -/
def fmt0 (p : String) (_ : Bool) (v : String) : String := p ++ ": " ++ v

/-- A concrete sliceNum instantiation. -/
def sn0 (_ : Rat) : String := "1"

/-- A concrete htmlColorFromFills instantiation. -/
def hcf0 (_ : List Paint) : String := "rgb(10, 20, 30)"

/-- A concrete htmlGradientFromFills instantiation. -/
def hgf0 (_ : List Paint) : String := "lg"

end Fixtures

/- Helper lemmas shared by the claim theorems. -/

/-- A string is empty exactly when its character data is empty. -/
theorem string_eq_empty_iff (s : String) : s = "" ↔ s.data = [] := by
  constructor
  · intro h; rw [h]
  · intro h; cases s; simp_all

/-- The forEach of the walker over an already-filtered list is the
separator-join of the rendered units. -/
theorem widgetLoop_eq_jsJoin (ext : Swiftui.Ext) (st : Swiftui.Settings)
    (l : List Swiftui.SNode) (lvl : Nat) :
    Swiftui.widgetLoop ext st l lvl =
      jsJoin "\n" (l.map (fun n => Swiftui.renderNode ext st n lvl)) := by
  induction l with
  | nil => simp [Swiftui.widgetLoop, jsJoin]
  | cons a t ih =>
    cases t with
    | nil => simp [Swiftui.widgetLoop, jsJoin]
    | cons b t2 =>
      rw [Swiftui.widgetLoop, ih]
      simp [jsJoin]

/-- C5, as written, is refuted: the walker claims that nodes without a
registered renderer contribute neither a unit nor a separator, but the
separator is appended after every non-final visible node whether or not its
kind rendered anything. With a visible VECTOR followed by a visible
RECTANGLE, the output is a newline followed by the rectangle fragment, not
the rectangle fragment alone. -/
theorem C5_counterexample :
    Swiftui.swiftuiWidgetGenerator Fixtures.ext0 Fixtures.st0
        [Fixtures.vec0, Fixtures.rect0] 0 =
      "\n" ++ Swiftui.swiftuiWidgetGenerator Fixtures.ext0 Fixtures.st0
        [Fixtures.rect0] 0 ∧
    Swiftui.swiftuiWidgetGenerator Fixtures.ext0 Fixtures.st0
        [Fixtures.rect0] 0 ≠ "" := by
  constructor
  · simp [Swiftui.swiftuiWidgetGenerator, Swiftui.widgetLoop,
      Swiftui.renderNode, Fixtures.vec0, Fixtures.rect0, Swiftui.SNode.visible,
      Swiftui.SNode.type]
  · simp [Swiftui.swiftuiWidgetGenerator, Swiftui.widgetLoop,
      Swiftui.renderNode, Fixtures.rect0, Swiftui.SNode.visible,
      Swiftui.SNode.type, Swiftui.swiftuiContainer, Swiftui.SNode.hasLayoutAlign,
      Swiftui.SNode.hasOpacity, Swiftui.SNode.width, Swiftui.SNode.height,
      Fixtures.ext0, Swiftui.indentString, jsSplit, splitCharsOn, jsJoin]

/-- C5 amended: the walker produces one rendered unit per visible node,
joined by the newline separator with no trailing separator, where a visible
node whose kind has no registered renderer contributes an empty unit - the
separator after a non-final node is emitted whether or not its kind
rendered anything. -/
theorem C5_amended (ext : Swiftui.Ext) (st : Swiftui.Settings)
    (sceneNode : List Swiftui.SNode) (indentLevel : Nat) :
    Swiftui.swiftuiWidgetGenerator ext st sceneNode indentLevel =
      jsJoin "\n" ((sceneNode.filter (fun d => d.visible)).map
        (fun n => Swiftui.renderNode ext st n indentLevel)) := by
  rw [Swiftui.swiftuiWidgetGenerator, widgetLoop_eq_jsJoin]

/-- Instance of the amended C5 at a concrete input. -/
theorem C5_amended_witness :
    Swiftui.swiftuiWidgetGenerator Fixtures.ext0 Fixtures.st0
        [Fixtures.vec0, Fixtures.rect0] 0 =
      jsJoin "\n" (([Fixtures.vec0, Fixtures.rect0].filter
          (fun d => d.visible)).map
        (fun n => Swiftui.renderNode Fixtures.ext0 Fixtures.st0 n 0)) :=
  C5_amended Fixtures.ext0 Fixtures.st0 [Fixtures.vec0, Fixtures.rect0] 0

/-- C6: the code is at fault. swiftuiMain contains the leading-newline
removal together with the comment saying it removes the initial newline made
in Container, but the switch on the generation mode above it returns in
every branch, so the removal is dead code: in snippet mode the fragment is
returned with its leading newline separator intact. On the failing input - a
single visible text node with characters hi under snippet mode - the result
still starts with the newline the claim says is stripped. -/
theorem C6_snippet_keeps_leading_newline :
    Swiftui.swiftuiMain Fixtures.ext0 Fixtures.st0 [Fixtures.text0] =
      some "\nText(\"hi\")" ∧
    ("\nText(\"hi\")").data.head? = some '\n' := by
  constructor
  · simp [Swiftui.swiftuiMain, Fixtures.st0, Swiftui.swiftuiWidgetGenerator,
      Swiftui.widgetLoop, Swiftui.renderNode, Fixtures.text0,
      Swiftui.SNode.visible, Swiftui.SNode.type, Swiftui.swiftuiText,
      Swiftui.SNode.textCase, Swiftui.SNode.characters, Fixtures.ext0,
      jsSplit, splitCharsOn, jsJoin, Swiftui.indentString]
  · decide

/-- C7, as written, is refuted: when the measured item spacing is 15.5 it
rounds to the default constant 16 and getSpacing emits 16, but the emitted
value is not numerically identical to the measured spacing. -/
theorem C7_counterexample :
    Swiftui.getSpacing Fixtures.layHalf = 16 ∧
    Fixtures.layHalf.itemSpacing ≠ 16 := by
  constructor
  · simp [Swiftui.getSpacing, Fixtures.layHalf, jsRound]
    decide
  · decide

/-- C7 amended: the emitted stack spacing equals the measured item spacing,
except when the measured spacing rounds to 16, in which case the constant 16
is emitted; the constant can differ from the measured spacing and equals it
only when the measured spacing is exactly 16. -/
theorem C7_amended (lay : Swiftui.LayoutInfo) :
    (jsRound lay.itemSpacing ≠ 16 →
      Swiftui.getSpacing lay = lay.itemSpacing) ∧
    (jsRound lay.itemSpacing = 16 → Swiftui.getSpacing lay = 16) := by
  constructor
  · intro h
    simp [Swiftui.getSpacing, h]
  · intro h
    simp [Swiftui.getSpacing, h]

/-- Instances of the amended C7 at concrete inputs on both sides of the
rounding test. -/
theorem C7_amended_witness :
    Swiftui.getSpacing ⟨.HORIZONTAL, .CENTER, 5⟩ = (5 : Rat) ∧
    Swiftui.getSpacing Fixtures.layHalf = 16 :=
  ⟨(C7_amended ⟨.HORIZONTAL, .CENTER, 5⟩).1 (by decide),
   (C7_amended Fixtures.layHalf).2 (by decide)⟩

/-- C8, as written, is refuted: a zero-width group is not suppressed
entirely - swiftuiContainer returns its stack argument, so the group still
emits its ZStack construct (and, when present, the rendered children inside
it) to the output. -/
theorem C8_counterexample :
    Fixtures.group0.width ≤ 0 ∧
    Swiftui.swiftuiGroup Fixtures.ext0 Fixtures.st0 Fixtures.group0 0 =
      "\nZStack \x7b\n\x7d" ∧
    ("\nZStack \x7b\n\x7d" : String) ≠ "" := by
  refine ⟨by decide, ?_, by decide⟩
  simp [Swiftui.swiftuiGroup, Swiftui.swiftuiContainer, Fixtures.group0,
    Swiftui.SNode.hasLayoutAlign, Swiftui.SNode.hasOpacity,
    Swiftui.SNode.width, Swiftui.SNode.height,
    Swiftui.widgetGeneratorWithLimits, Swiftui.SNode.children,
    Swiftui.swiftuiWidgetGenerator, Swiftui.widgetLoop]

/-- C8 amended: when a node with the layoutAlign and opacity fields has
width or height of zero or less, swiftuiContainer drops the node's own
construct and modifiers and returns the bare stack argument unchanged - the
empty string for shape nodes, but for groups and frames the stack already
containing the rendered children. -/
theorem C8_amended (ext : Swiftui.Ext) (st : Swiftui.Settings)
    (node : Swiftui.SNode) (lvl : Nat) (stack : String)
    (hla : node.hasLayoutAlign = true) (hop : node.hasOpacity = true)
    (hsz : node.width ≤ 0 ∨ node.height ≤ 0) :
    Swiftui.swiftuiContainer ext st node lvl stack = stack := by
  rw [Swiftui.swiftuiContainer]
  simp only [hla, hop]
  rcases hsz with h | h <;> simp [h]

/-- Instance of the amended C8 at the zero-width group. -/
theorem C8_amended_witness :
    Swiftui.swiftuiContainer Fixtures.ext0 Fixtures.st0 Fixtures.group0 0
      "\nZStack \x7b\n\x7d" = "\nZStack \x7b\n\x7d" :=
  C8_amended Fixtures.ext0 Fixtures.st0 Fixtures.group0 0 "\nZStack \x7b\n\x7d"
    (by decide) (by decide) (Or.inl (by decide))

/-- C9, as written, is refuted: the empty root sequence is not the only
empty-result path. A root consisting of one visible VECTOR node - a kind
with no registered renderer - also yields empty output in snippet mode. -/
theorem C9_counterexample :
    Swiftui.swiftuiMain Fixtures.ext0 Fixtures.st0 [Fixtures.vec0] =
      some "" ∧
    ([Fixtures.vec0] : List Swiftui.SNode) ≠ [] ∧
    Fixtures.vec0.visible = true := by
  refine ⟨?_, by simp, by decide⟩
  simp [Swiftui.swiftuiMain, Fixtures.st0, Swiftui.swiftuiWidgetGenerator,
    Swiftui.widgetLoop, Swiftui.renderNode, Fixtures.vec0,
    Swiftui.SNode.visible, Swiftui.SNode.type]

/-- C9 amended: in snippet mode an empty root node sequence yields empty
output, but the converse fails - some non-empty root sequences (for example
a single visible node of an unrendered kind) also yield empty output. -/
theorem C9_amended (ext : Swiftui.Ext) (st : Swiftui.Settings)
    (hmode : st.swiftUIGenerationMode = .snippet) :
    Swiftui.swiftuiMain ext st [] = some "" := by
  simp [Swiftui.swiftuiMain, hmode, Swiftui.swiftuiWidgetGenerator,
    Swiftui.widgetLoop]

/-- Instance of the amended C9 at the concrete snippet settings. -/
theorem C9_amended_witness :
    Swiftui.swiftuiMain Fixtures.ext0 Fixtures.st0 [] = some "" :=
  C9_amended Fixtures.ext0 Fixtures.st0 (by decide)

/-- Chunking the empty list gives no chunks. -/
theorem chunksOf10_nil : Swiftui.chunksOf10 ([] : List α) = [] := by
  rw [Swiftui.chunksOf10]
  simp

/-- Chunking a non-empty list takes ten elements and recurses on the rest. -/
theorem chunksOf10_cons (l : List α) (h : l ≠ []) :
    Swiftui.chunksOf10 l = l.take 10 :: Swiftui.chunksOf10 (l.drop 10) := by
  rw [Swiftui.chunksOf10]
  simp [h]

/-- The chunks are consecutive and order-preserving: flattening them
restores the original list. -/
theorem chunksOf10_join (l : List α) : (Swiftui.chunksOf10 l).flatten = l := by
  generalize hn : l.length = n
  induction n using Nat.strong_induction_on generalizing l with
  | _ n ih =>
    by_cases h : l = []
    · subst h
      rw [chunksOf10_nil]
      simp
    · rw [chunksOf10_cons _ h]
      have hlen : 0 < l.length := List.length_pos.mpr h
      simp only [List.flatten_cons]
      rw [ih (l.drop 10).length (by simp [List.length_drop]; omega) _ rfl]
      exact List.take_append_drop 10 l

/-- The number of chunks of ten in a list. -/
theorem chunksOf10_length (l : List α) :
    (Swiftui.chunksOf10 l).length = (l.length + 9) / 10 := by
  generalize hn : l.length = n
  induction n using Nat.strong_induction_on generalizing l with
  | _ n ih =>
    by_cases h : l = []
    · subst h
      simp only [List.length_nil] at hn
      rw [chunksOf10_nil]
      simp [hn.symm]
    · rw [chunksOf10_cons _ h]
      have hlen : 0 < l.length := List.length_pos.mpr h
      simp only [List.length_cons]
      rw [ih (l.drop 10).length (by simp [List.length_drop]; omega) _ rfl]
      simp only [List.length_drop]
      omega

/-- The slicing loop of widgetGeneratorWithLimits produces exactly the
Group-wrapped renderings of the chunks of ten, concatenated in order. -/
theorem widgetChunkLoop_eq_concat (ext : Swiftui.Ext) (st : Swiftui.Settings)
    (cs : List Swiftui.SNode) (lvl : Nat) :
    Swiftui.widgetChunkLoop ext st cs lvl =
      concatAll ((Swiftui.chunksOf10 cs).map (fun c =>
        "\nGroup \x7b" ++ Swiftui.swiftuiWidgetGenerator ext st c lvl ++
          "\n\x7d")) := by
  generalize hn : cs.length = n
  induction n using Nat.strong_induction_on generalizing cs with
  | _ n ih =>
    by_cases h : cs = []
    · subst h
      rw [Swiftui.widgetChunkLoop, chunksOf10_nil]
      simp [concatAll]
    · rw [Swiftui.widgetChunkLoop, chunksOf10_cons _ h]
      have hlen : 0 < cs.length := List.length_pos.mpr h
      rw [ih (cs.drop 10).length (by simp [List.length_drop]; omega) _ rfl]
      simp [h, concatAll, String.append_assoc]

/-- A list of twenty-five elements splits into chunks of sizes ten, ten and
five. -/
theorem chunksOf10_len25 (l : List α) (h : l.length = 25) :
    (Swiftui.chunksOf10 l).map List.length = [10, 10, 5] := by
  have h0 : l ≠ [] := by
    intro e
    rw [e] at h
    simp at h
  have hd1 : (l.drop 10).length = 15 := by simp [List.length_drop, h]
  have h1 : l.drop 10 ≠ [] := by
    intro e
    rw [e] at hd1
    simp at hd1
  have hd2 : ((l.drop 10).drop 10).length = 5 := by
    simp [List.length_drop]
    omega
  have h2 : (l.drop 10).drop 10 ≠ [] := by
    intro e
    rw [e] at hd2
    simp at hd2
  have h3 : (((l.drop 10).drop 10).drop 10) = [] := by
    apply List.eq_nil_of_length_eq_zero
    simp [List.length_drop]
    omega
  rw [chunksOf10_cons _ h0, chunksOf10_cons _ h1, chunksOf10_cons _ h2, h3,
    chunksOf10_nil]
  simp [List.length_take, h, hd1, hd2]

/-- C1: the SwiftUI child generator chunks children into consecutive,
order-preserving groups of ten. A container with twenty-five children yields
exactly the concatenation of three Group-wrapped chunks of sizes ten, ten
and five; a container with one hundred and fifty children yields one
truncation comment followed by exactly ten Group-wrapped chunks that flatten
back to the first hundred children. -/
theorem C1_chunking :
    (∀ (ext : Swiftui.Ext) (st : Swiftui.Settings) (node : Swiftui.SNode)
        (lvl : Nat), node.children.length = 25 →
      Swiftui.widgetGeneratorWithLimits ext st node lvl =
        concatAll ((Swiftui.chunksOf10 node.children).map (fun c =>
          "\nGroup \x7b" ++ Swiftui.swiftuiWidgetGenerator ext st c lvl ++
            "\n\x7d")) ∧
      (Swiftui.chunksOf10 node.children).map List.length = [10, 10, 5] ∧
      (Swiftui.chunksOf10 node.children).flatten = node.children) ∧
    (∀ (ext : Swiftui.Ext) (st : Swiftui.Settings) (node : Swiftui.SNode)
        (lvl : Nat), node.children.length = 150 →
      Swiftui.widgetGeneratorWithLimits ext st node lvl =
        Swiftui.truncationComment ++
          concatAll ((Swiftui.chunksOf10 (node.children.take 100)).map
            (fun c => "\nGroup \x7b" ++
              Swiftui.swiftuiWidgetGenerator ext st c lvl ++ "\n\x7d")) ∧
      (Swiftui.chunksOf10 (node.children.take 100)).length = 10 ∧
      (Swiftui.chunksOf10 (node.children.take 100)).flatten =
        node.children.take 100) := by
  constructor
  · intro ext st node lvl h
    refine ⟨?_, chunksOf10_len25 _ h, chunksOf10_join _⟩
    rw [Swiftui.widgetGeneratorWithLimits]
    have h1 : ¬ node.children.length < 10 := by omega
    have h2 : ¬ node.children.length > 100 := by omega
    have h3 : node.children.take 100 = node.children :=
      List.take_of_length_le (by omega)
    rw [if_neg h1]
    simp only [h3, if_neg h2, widgetChunkLoop_eq_concat]
    rfl
  · intro ext st node lvl h
    have h1 : ¬ node.children.length < 10 := by omega
    have h2 : node.children.length > 100 := by omega
    have htl : (node.children.take 100).length = 100 := by
      simp [List.length_take, h]
    refine ⟨?_, ?_, chunksOf10_join _⟩
    · rw [Swiftui.widgetGeneratorWithLimits, if_neg h1]
      simp only [if_pos h2, widgetChunkLoop_eq_concat]
    · rw [chunksOf10_length, htl]

/-- Instances of C1 at concrete frames with twenty-five and one hundred and
fifty children. -/
theorem C1_chunking_witness :
    (Swiftui.widgetGeneratorWithLimits Fixtures.ext0 Fixtures.st0
        Fixtures.frame25 0 =
      concatAll ((Swiftui.chunksOf10 Fixtures.frame25.children).map (fun c =>
        "\nGroup \x7b" ++
          Swiftui.swiftuiWidgetGenerator Fixtures.ext0 Fixtures.st0 c 0 ++
          "\n\x7d")) ∧
      (Swiftui.chunksOf10 Fixtures.frame25.children).map List.length =
        [10, 10, 5] ∧
      (Swiftui.chunksOf10 Fixtures.frame25.children).flatten =
        Fixtures.frame25.children) ∧
    (Swiftui.widgetGeneratorWithLimits Fixtures.ext0 Fixtures.st0
        Fixtures.frame150 0 =
      Swiftui.truncationComment ++
        concatAll ((Swiftui.chunksOf10
          (Fixtures.frame150.children.take 100)).map (fun c =>
            "\nGroup \x7b" ++
              Swiftui.swiftuiWidgetGenerator Fixtures.ext0 Fixtures.st0 c 0 ++
              "\n\x7d")) ∧
      (Swiftui.chunksOf10 (Fixtures.frame150.children.take 100)).length = 10 ∧
      (Swiftui.chunksOf10 (Fixtures.frame150.children.take 100)).flatten =
        Fixtures.frame150.children.take 100) :=
  ⟨C1_chunking.1 Fixtures.ext0 Fixtures.st0 Fixtures.frame25 0
      (by simp [Fixtures.frame25, Swiftui.SNode.children]),
   C1_chunking.2 Fixtures.ext0 Fixtures.st0 Fixtures.frame150 0
      (by simp [Fixtures.frame150, Swiftui.SNode.children])⟩

/-- C10: with exactly ten children the chunking threshold fires (the test is
children below ten, not at most ten), so the ten children are wrapped in a
single neutral Group construct instead of taking the standard ungrouped
path. -/
theorem C10_ten_children_single_group (ext : Swiftui.Ext)
    (st : Swiftui.Settings) (node : Swiftui.SNode) (lvl : Nat)
    (h : node.children.length = 10) :
    Swiftui.widgetGeneratorWithLimits ext st node lvl =
      "\nGroup \x7b" ++
        Swiftui.swiftuiWidgetGenerator ext st node.children lvl ++ "\n\x7d" := by
  have h1 : ¬ node.children.length < 10 := by omega
  have h2 : ¬ node.children.length > 100 := by omega
  have h3 : node.children.take 100 = node.children :=
    List.take_of_length_le (by omega)
  have h0 : node.children ≠ [] := by
    intro e
    rw [e] at h
    simp at h
  rw [Swiftui.widgetGeneratorWithLimits, if_neg h1]
  simp only [h3, if_neg h2, widgetChunkLoop_eq_concat, chunksOf10_cons _ h0]
  have h4 : node.children.drop 10 = [] := by
    apply List.eq_nil_of_length_eq_zero
    simp [List.length_drop, h]
  have h5 : node.children.take 10 = node.children :=
    List.take_of_length_le (by omega)
  rw [h4, chunksOf10_nil, h5]
  simp [h2, concatAll]

/-- Instance of C10 at a concrete frame with ten children. -/
theorem C10_ten_children_single_group_witness :
    Swiftui.widgetGeneratorWithLimits Fixtures.ext0 Fixtures.st0
        Fixtures.frame10 0 =
      "\nGroup \x7b" ++ Swiftui.swiftuiWidgetGenerator Fixtures.ext0
        Fixtures.st0 Fixtures.frame10.children 0 ++ "\n\x7d" :=
  C10_ten_children_single_group Fixtures.ext0 Fixtures.st0 Fixtures.frame10 0
    (by simp [Fixtures.frame10, Swiftui.SNode.children])

/-- C2: the border step of the HTML builder. After the border-radius styles,
a uniform stroke weight of zero adds no border declaration, a uniform
non-zero weight adds exactly one shorthand border declaration, and
non-uniform weights add one declaration per non-zero edge, strictly in left,
top, right, bottom order. The hypothesis states that formatWithJSX never
returns an empty string, which the push filter of addStyles would drop. -/
theorem C2_border_exhaustiveness
    (fmt : String → Bool → String → String) (sn : Rat → String)
    (isJSX : Bool) (radiusStyles : List String) (color : String) (dash : Nat)
    (hfmt : ∀ p j v, fmt p j v ≠ "") :
    (Html.border fmt sn isJSX radiusStyles (some (.all 0)) color dash =
      Html.addStyles [] radiusStyles) ∧
    (∀ w : Rat, w ≠ 0 →
      Html.border fmt sn isJSX radiusStyles (some (.all w)) color dash =
        Html.addStyles [] radiusStyles ++
          [fmt "border" isJSX (Html.consolidateBorders sn color
            (if dash > 0 then "dotted" else "solid") w)]) ∧
    (∀ l t r b : Rat,
      Html.border fmt sn isJSX radiusStyles (some (.sides l t r b)) color
          dash =
        Html.addStyles [] radiusStyles ++
          (([("border-left", l), ("border-top", t), ("border-right", r),
              ("border-bottom", b)].filter (fun e => decide (e.2 ≠ 0))).map
            (fun e => fmt e.1 isJSX (Html.consolidateBorders sn color
              (if dash > 0 then "dotted" else "solid") e.2)))) := by
  refine ⟨?_, ?_, ?_⟩
  · simp [Html.border]
  · intro w hw
    simp [Html.border, hw, Html.addStyles, hfmt]
  · intro l t r b
    by_cases hl : l = 0 <;> by_cases ht : t = 0 <;> by_cases hr : r = 0 <;>
      by_cases hb : b = 0 <;>
      simp [Html.border, Html.addStyles, hl, ht, hr, hb, hfmt]

/-- The character data of an appended string. -/
theorem string_data_append (a b : String) : (a ++ b).data = a.data ++ b.data :=
  rfl

/-- Appending a non-empty string on the right gives a non-empty string. -/
theorem append_ne_empty_right (a b : String) (hb : b ≠ "") : a ++ b ≠ "" := by
  intro h
  rw [string_eq_empty_iff, string_data_append, List.append_eq_nil] at h
  exact hb (by rw [string_eq_empty_iff]; exact h.2)

/-- Appending to a non-empty string gives a non-empty string. -/
theorem append_ne_empty_left (a b : String) (ha : a ≠ "") : a ++ b ≠ "" := by
  intro h
  rw [string_eq_empty_iff, string_data_append, List.append_eq_nil] at h
  exact ha (by rw [string_eq_empty_iff]; exact h.1)

/-- The concrete formatWithJSX instantiation never yields an empty string. -/
theorem fmt0_ne_empty (p : String) (j : Bool) (v : String) :
    Fixtures.fmt0 p j v ≠ "" := by
  intro h
  rw [Fixtures.fmt0, string_eq_empty_iff, string_data_append,
    string_data_append, List.append_eq_nil, List.append_eq_nil] at h
  have h2 : (": " : String).data = [] := h.1.2
  simp at h2

/-- Instance of C2 at a concrete input: left and right weights set, top and
bottom zero, so exactly the left and right declarations are emitted, in that
order. -/
theorem C2_border_exhaustiveness_witness :
    Html.border Fixtures.fmt0 Fixtures.sn0 false [] (some (.sides 1 0 2 0))
        "red" 0 =
      [Fixtures.fmt0 "border-left" false
          (Html.consolidateBorders Fixtures.sn0 "red" "solid" 1),
       Fixtures.fmt0 "border-right" false
          (Html.consolidateBorders Fixtures.sn0 "red" "solid" 2)] := by
  have h := (C2_border_exhaustiveness Fixtures.fmt0 Fixtures.sn0 false []
    "red" 0 fmt0_ne_empty).2.2 1 0 2 0
  simp only [Html.addStyles, List.filter] at h ⊢
  norm_num at h
  exact h

/-- C3: the serialization filter of the HTML builder drops any accumulated
width declaration unless the horizontal sizing mode is FIXED and any height
declaration unless the vertical sizing mode is FIXED, while keeping every
other declaration; in particular a fixed-horizontal, hug-vertical node keeps
its width declaration and loses its height declaration, whatever the values
are. -/
theorem C3_sizing_filter (styles : List String)
    (h v : Html.LayoutSizing) :
    (∀ s ∈ Html.buildStyleFilter styles h v,
      Html.styleProp s = "width" → h = .FIXED) ∧
    (∀ s ∈ Html.buildStyleFilter styles h v,
      Html.styleProp s = "height" → v = .FIXED) ∧
    (h = .FIXED → ∀ s ∈ styles, Html.styleProp (jsTrim s) = "width" →
      jsTrim s ∈ Html.buildStyleFilter styles h v) ∧
    (v = .FIXED → ∀ s ∈ styles, Html.styleProp (jsTrim s) = "height" →
      jsTrim s ∈ Html.buildStyleFilter styles h v) ∧
    (∀ s ∈ styles, Html.styleProp (jsTrim s) ≠ "width" →
      Html.styleProp (jsTrim s) ≠ "height" →
      jsTrim s ∈ Html.buildStyleFilter styles h v) := by
  refine ⟨?_, ?_, ?_, ?_, ?_⟩
  · intro s hs hw
    simp only [Html.buildStyleFilter, List.mem_filter] at hs
    have hp := hs.2
    simp [hw] at hp
    exact hp
  · intro s hs hw
    simp only [Html.buildStyleFilter, List.mem_filter] at hs
    have hp := hs.2
    simp [hw] at hp
    exact hp
  · intro hF s hs hw
    simp only [Html.buildStyleFilter, List.mem_filter]
    exact ⟨List.mem_map_of_mem _ hs, by simp [hw, hF]⟩
  · intro hF s hs hw
    simp only [Html.buildStyleFilter, List.mem_filter]
    exact ⟨List.mem_map_of_mem _ hs, by simp [hw, hF]⟩
  · intro s hs hw hh
    simp only [Html.buildStyleFilter, List.mem_filter]
    exact ⟨List.mem_map_of_mem _ hs, by simp [hw, hh]⟩

/-- Instance of C3 at a concrete input: a fixed-horizontal, hug-vertical
node keeps the width declaration. -/
theorem C3_sizing_filter_witness :
    jsTrim "width: 100px" ∈
      Html.buildStyleFilter ["width: 100px", "height: 50px"] .FIXED .HUG :=
  (C3_sizing_filter ["width: 100px", "height: 50px"] .FIXED .HUG).2.2.1 rfl
    "width: 100px" (by simp) (by decide)

/-- On the multi-paint path, filtering the empty segments out of the mapped
paint list is exactly the filterMap of paintSegment, provided the gradient
helper yields non-empty expressions for the gradient paints of the list. -/
theorem segs_filter_eq (hcf hgf : List Html.Paint → String)
    (ps : List Html.Paint)
    (hg : ∀ p ∈ ps, Html.Paint.isGradient p = true → hgf [p] ≠ "") :
    ((ps.map (fun paint =>
      match paint with
      | .SOLID _ _ =>
        let color := hcf [paint]
        "linear-gradient(0deg, " ++ color ++ " 0%, " ++ color ++ " 100%)"
      | .GRADIENT_LINEAR _ => hgf [paint]
      | .GRADIENT_RADIAL _ => hgf [paint]
      | .GRADIENT_ANGULAR _ => hgf [paint]
      | _ => "")).filter (fun value => value != "")) =
      ps.filterMap (Html.paintSegment hcf hgf) := by
  induction ps with
  | nil => simp
  | cons p rest ih =>
    have hgr : ∀ q ∈ rest, Html.Paint.isGradient q = true → hgf [q] ≠ "" :=
      fun q hq => hg q (List.mem_cons_of_mem _ hq)
    rw [List.map_cons, List.filter_cons, List.filterMap_cons]
    cases p with
    | SOLID c o =>
      have hne := append_ne_empty_left "linear-gradient(0deg, "
        (hcf [Html.Paint.SOLID c o] ++ " 0%, " ++
          hcf [Html.Paint.SOLID c o] ++ " 100%)") (by decide)
      simp [Html.paintSegment, ih hgr]
      exact hne
    | GRADIENT_LINEAR s =>
      have hne := hg _ (List.mem_cons_self _ _) rfl
      simp [Html.paintSegment, ih hgr, hne]
    | GRADIENT_RADIAL s =>
      have hne := hg _ (List.mem_cons_self _ _) rfl
      simp [Html.paintSegment, ih hgr, hne]
    | GRADIENT_ANGULAR s =>
      have hne := hg _ (List.mem_cons_self _ _) rfl
      simp [Html.paintSegment, ih hgr, hne]
    | IMAGE => simp [Html.paintSegment, ih hgr]
    | VIDEO => simp [Html.paintSegment, ih hgr]

/-- C4: the paint resolver yields the empty string on the Mixed sentinel, a
plain color expression for a one-element solid list, and, for two or more
paints, one segment per supported paint joined by the multi-layer separator
in the original order, solid paints rendered as degenerate two-stop
gradients and unsupported kinds contributing no segment. The hypothesis
states that htmlGradientFromFills yields a non-empty expression on the
gradient paints of the list; an empty one would be dropped by the segment
filter. -/
theorem C4_paint_composite (hcf hgf : List Html.Paint → String) :
    (Html.buildBackgroundValues hcf hgf .mixed = "") ∧
    (∀ (c : Html.RGB) (o : Rat),
      Html.buildBackgroundValues hcf hgf (.list [.SOLID c o]) =
        hcf [.SOLID c o]) ∧
    (∀ ps : List Html.Paint, 2 ≤ ps.length →
      (∀ p ∈ ps, Html.Paint.isGradient p = true → hgf [p] ≠ "") →
      Html.buildBackgroundValues hcf hgf (.list ps) =
        jsJoin ", " (ps.filterMap (Html.paintSegment hcf hgf))) := by
  refine ⟨rfl, ?_, ?_⟩
  · intro c o
    simp [Html.buildBackgroundValues, Html.Paint.isSolid]
  · intro ps hlen hg
    have hne : ps.length ≠ 1 := by omega
    rw [Html.buildBackgroundValues]
    rw [if_neg (by simp [hne])]
    exact congrArg (jsJoin ", ") (segs_filter_eq hcf hgf ps hg)

/-- Instance of C4 at concrete inputs: the mixed sentinel, one solid paint,
and a solid paint above a linear gradient. -/
theorem C4_paint_composite_witness :
    (Html.buildBackgroundValues Fixtures.hcf0 Fixtures.hgf0 .mixed = "") ∧
    Html.buildBackgroundValues Fixtures.hcf0 Fixtures.hgf0
        (.list [.SOLID ⟨10, 20, 30⟩ 1]) =
      Fixtures.hcf0 [.SOLID ⟨10, 20, 30⟩ 1] ∧
    Html.buildBackgroundValues Fixtures.hcf0 Fixtures.hgf0
        (.list [.SOLID ⟨255, 0, 0⟩ 1, .GRADIENT_LINEAR []]) =
      jsJoin ", " ([Html.Paint.SOLID ⟨255, 0, 0⟩ 1,
        Html.Paint.GRADIENT_LINEAR []].filterMap
          (Html.paintSegment Fixtures.hcf0 Fixtures.hgf0)) :=
  ⟨(C4_paint_composite Fixtures.hcf0 Fixtures.hgf0).1,
   (C4_paint_composite Fixtures.hcf0 Fixtures.hgf0).2.1 ⟨10, 20, 30⟩ 1,
   (C4_paint_composite Fixtures.hcf0 Fixtures.hgf0).2.2
     [.SOLID ⟨255, 0, 0⟩ 1, .GRADIENT_LINEAR []] (by decide)
     (by intro p hp hgrad; simp [Fixtures.hgf0])⟩
